import Mathlib

/-!
Shallow embedding of the `mini-palantir-gotham` backend
(`src/backend/models.py`, `src/backend/main.py`, `src/backend/nyc_ingest.py`).

Conventions of the embedding:
* SQL `Float` columns and `DateTime` values are modelled as `ℚ` (datetimes as
  seconds on a linear time axis); nullable columns as `Option _`.
* A database table is a `List` of rows in insertion order.
* Python truthiness of an optional float (`all([lat_min, ...])`) and of an
  optional string (`if borough:`) is modelled explicitly, since `0.0`, `None`
  and `""` are all falsy in Python.
* SQL three-valued logic: a comparison or `ILIKE` against a NULL column is
  not satisfied, so such rows are filtered out.
-/

namespace Gotham

/-- Row of the `crime_events` table, with every column of
`models.py` (class `CrimeEvent`). -/
structure CrimeEvent where
  id : Nat
  complaint_number : Option String
  occurrence_date : Option ℚ
  report_date : Option ℚ
  offense_description : Option String
  law_category : Option String
  specific_offense : Option String
  borough : Option String
  precinct : Option Int
  jurisdiction : Option String
  address : Option String
  intersection : Option String
  latitude : Option ℚ
  longitude : Option ℚ
  location_description : Option String
  premises_type : Option String
  status : Option String
  arrest_made : Option Bool
  victim_age_group : Option String
  victim_gender : Option String
  victim_race : Option String
  suspect_age_group : Option String
  suspect_gender : Option String
  suspect_race : Option String
  case_notes : Option String
  created_at : Option ℚ
  updated_at : Option ℚ
  data_source : Option String
  data_quality_score : Option ℚ
deriving DecidableEq, Repr

/-- The dictionary produced by `CrimeEvent.to_dict` in `models.py`:
exactly the 21 keys listed there (no suspect demographics, no case notes,
no intersection, jurisdiction, data-quality score or update timestamp). -/
structure CrimeDict where
  id : Nat
  complaint_number : Option String
  occurrence_date : Option ℚ
  report_date : Option ℚ
  offense_description : Option String
  law_category : Option String
  specific_offense : Option String
  borough : Option String
  precinct : Option Int
  address : Option String
  latitude : Option ℚ
  longitude : Option ℚ
  location_description : Option String
  premises_type : Option String
  status : Option String
  arrest_made : Option Bool
  victim_age_group : Option String
  victim_gender : Option String
  victim_race : Option String
  created_at : Option ℚ
  data_source : Option String
deriving DecidableEq, Repr

/-- Serialization `CrimeEvent.to_dict` (`models.py`, lines 78-102).
The `isoformat()` calls only format a datetime; the embedding keeps the
underlying value. -/
def CrimeEvent.to_dict (e : CrimeEvent) : CrimeDict :=
  { id := e.id
    complaint_number := e.complaint_number
    occurrence_date := e.occurrence_date
    report_date := e.report_date
    offense_description := e.offense_description
    law_category := e.law_category
    specific_offense := e.specific_offense
    borough := e.borough
    precinct := e.precinct
    address := e.address
    latitude := e.latitude
    longitude := e.longitude
    location_description := e.location_description
    premises_type := e.premises_type
    status := e.status
    arrest_made := e.arrest_made
    victim_age_group := e.victim_age_group
    victim_gender := e.victim_gender
    victim_race := e.victim_race
    created_at := e.created_at
    data_source := e.data_source }

/-- Row of the `boroughs` table (`models.py`, class `Borough`), without the
auto-assigned surrogate id/timestamps. `total_crimes` and
`crime_rate_per_1000` have column defaults `0` / `0.0`. -/
structure Borough where
  name : String
  population : Nat
  area_sq_miles : ℚ
  total_crimes : Nat
  crime_rate_per_1000 : ℚ
  north_bound : ℚ
  south_bound : ℚ
  east_bound : ℚ
  west_bound : ℚ
deriving DecidableEq, Repr

/-- Row of the `crime_stats` table (`models.py`, class `CrimeStats`). -/
structure CrimeStats where
  id : Nat
  stat_date : Option ℚ
  period_type : Option String
  borough : Option String
  precinct : Option Int
  offense_category : Option String
  crime_count : Nat
  arrest_count : Nat
  clearance_rate : ℚ
  change_from_previous : ℚ
  trend_direction : Option String
  created_at : Option ℚ
deriving DecidableEq, Repr

/-- Python truthiness of an optional float: `None` and `0.0` are falsy. -/
def pyTruthyFloat : Option ℚ → Bool
  | Option.none => false
  | Option.some x => decide (x ≠ 0)

/-- Python truthiness of an optional string: `None` and `""` are falsy. -/
def pyTruthyStr : Option String → Bool
  | Option.none => false
  | Option.some s => !s.isEmpty

/-- Helper for `ILIKE`: does the second character list occur at the start of
the first. -/
def charsStartWith : List Char → List Char → Bool
  | _, [] => true
  | [], _ :: _ => false
  | c :: cs, d :: ds => c == d && charsStartWith cs ds

/-- Helper for `ILIKE`: does the second character list occur anywhere inside
the first. -/
def charsContain : List Char → List Char → Bool
  | [], pat => pat.isEmpty
  | c :: cs, pat => charsStartWith (c :: cs) pat || charsContain cs pat

/-- Case-insensitive substring test, the meaning of SQL
`column ILIKE percent-pat-percent` on a non-NULL column. -/
def strContainsCI (s pat : String) : Bool :=
  charsContain (s.toList.map Char.toLower) (pat.toList.map Char.toLower)

/-- SQL `column ILIKE percent-pat-percent`: NULL columns never match. -/
def ilikeOpt : Option String → String → Bool
  | Option.none, _ => false
  | Option.some s, pat => strContainsCI s pat

/-! ## Ingestion pipeline (`nyc_ingest.py`) -/

/-- In-flight state of the row loop of `ingest_csv_data`
(`nyc_ingest.py`, lines 180-222): rows already committed to the table,
rows added to the session but not yet committed, and the two counters. -/
structure BatchState where
  committed : List CrimeEvent
  pending : List CrimeEvent
  successful : Nat
  failed : Nat
deriving DecidableEq, Repr

/-- One iteration of the row loop of `ingest_csv_data`.  A CSV row is
`some e` when every field coercion in the `CrimeEvent(...)` construction
succeeds (a well-formed row) and `none` when a coercion raises (malformed).
On success the object is added to the session (`session.add`) and every
100th successful insert commits the session; on failure the counter is
bumped and `session.rollback()` discards every pending (uncommitted)
object in the session. -/
def ingestRow (s : BatchState) (row : Option CrimeEvent) : BatchState :=
  match row with
  | Option.some ev =>
    let pending := s.pending ++ [ev]
    let successful := s.successful + 1
    if successful % 100 == 0 then
      { committed := s.committed ++ pending, pending := [],
        successful := successful, failed := s.failed }
    else
      { s with pending := pending, successful := successful }
  | Option.none =>
    { s with pending := [], failed := s.failed + 1 }

/-- Result of `ingest_csv_data`: the final contents of the `crime_events`
table, the two counters, and the boolean flag returned to the caller. -/
structure IngestResult where
  table : List CrimeEvent
  successful : Nat
  failed : Nat
  success : Bool
deriving DecidableEq, Repr

/-- The happy-path of `ingest_csv_data` (`nyc_ingest.py`, lines 149-239):
delete all pre-existing rows and commit, run the row loop, then perform the
final commit and return `True`.  `pre` is the table contents before the
run; `rows` classifies each CSV row as well-formed (`some`) or malformed
(`none`).  The `except` branch returning `False` models only a
catastrophic session failure (e.g. lost connection), which has no
counterpart in this embedding where delete and commits always succeed. -/
def ingest_csv_data (pre : List CrimeEvent) (rows : List (Option CrimeEvent)) :
    IngestResult :=
  let _ := pre
  let s0 : BatchState := { committed := [], pending := [], successful := 0, failed := 0 }
  let s := rows.foldl ingestRow s0
  { table := s.committed ++ s.pending
    successful := s.successful
    failed := s.failed
    success := true }

/-- The fixed in-code borough table of `initialize_boroughs`
(`nyc_ingest.py`, lines 248-294), with the column defaults for the two
statistics fields. -/
def boroughs_data : List Borough :=
  [ { name := "MANHATTAN", population := 1694251, area_sq_miles := 2283/100,
      total_crimes := 0, crime_rate_per_1000 := 0,
      north_bound := 4088/100, south_bound := 4070/100,
      east_bound := -7391/100, west_bound := -7402/100 },
    { name := "BROOKLYN", population := 2736074, area_sq_miles := 6950/100,
      total_crimes := 0, crime_rate_per_1000 := 0,
      north_bound := 4074/100, south_bound := 4057/100,
      east_bound := -7384/100, west_bound := -7406/100 },
    { name := "QUEENS", population := 2405464, area_sq_miles := 10853/100,
      total_crimes := 0, crime_rate_per_1000 := 0,
      north_bound := 4080/100, south_bound := 4054/100,
      east_bound := -7370/100, west_bound := -7396/100 },
    { name := "BRONX", population := 1472654, area_sq_miles := 42,
      total_crimes := 0, crime_rate_per_1000 := 0,
      north_bound := 4092/100, south_bound := 4079/100,
      east_bound := -7376/100, west_bound := -7393/100 },
    { name := "STATEN ISLAND", population := 495747, area_sq_miles := 5750/100,
      total_crimes := 0, crime_rate_per_1000 := 0,
      north_bound := 4065/100, south_bound := 4047/100,
      east_bound := -7405/100, west_bound := -7426/100 } ]

/-- Happy path of `initialize_boroughs` (`nyc_ingest.py`, lines 242-316):
delete every row of the `boroughs` table, insert the five fixed records,
commit.  The argument is the table contents before the call. -/
def initialize_boroughs (_t : List Borough) : List Borough :=
  boroughs_data

/-! ## Query API (`main.py`) -/

/-- Query parameters of `GET /crimes` (`main.py`, lines 88-99).  FastAPI
validates `skip ≥ 0` and `1 ≤ limit ≤ 1000` before the handler runs; the
date strings are kept as parsed timestamps. -/
structure CrimesParams where
  skip : Nat
  limit : Nat
  borough : Option String
  offense : Option String
  start_date : Option ℚ
  end_date : Option ℚ
  lat_min : Option ℚ
  lat_max : Option ℚ
  lng_min : Option ℚ
  lng_max : Option ℚ
deriving DecidableEq, Repr

/-- The guard `all([lat_min, lat_max, lng_min, lng_max])` of `main.py`
line 124: Python `all` over the four optional floats, so a bound that is
supplied as `0.0` is falsy and disables the whole bounding-box filter. -/
def bboxAllTruthy (p : CrimesParams) : Bool :=
  pyTruthyFloat p.lat_min && pyTruthyFloat p.lat_max &&
    pyTruthyFloat p.lng_min && pyTruthyFloat p.lng_max

/-- The bounding-box conjunction of `main.py` lines 125-132 as a row
predicate; a NULL latitude or longitude never satisfies the SQL
comparisons. -/
def bboxPred (p : CrimesParams) (e : CrimeEvent) : Bool :=
  match p.lat_min, p.lat_max, p.lng_min, p.lng_max, e.latitude, e.longitude with
  | Option.some lamin, Option.some lamax, Option.some lomin, Option.some lomax,
      Option.some la, Option.some lo =>
    decide (lamin ≤ la) && decide (la ≤ lamax) &&
      decide (lomin ≤ lo) && decide (lo ≤ lomax)
  | _, _, _, _, _, _ => false

/-- Stage `if borough: query.filter(CrimeEvent.borough.ilike(...))` of
`get_crimes` (`main.py`, lines 109-110). -/
def boroughFilter (b : Option String) (l : List CrimeEvent) : List CrimeEvent :=
  if pyTruthyStr b then l.filter (fun e => ilikeOpt e.borough (b.getD "")) else l

/-- Stage `if offense: query.filter(CrimeEvent.offense_description.ilike(...))`
of `get_crimes` (`main.py`, lines 112-113). -/
def offenseFilter (o : Option String) (l : List CrimeEvent) : List CrimeEvent :=
  if pyTruthyStr o then
    l.filter (fun e => ilikeOpt e.offense_description (o.getD "")) else l

/-- Stage `if start_date: query.filter(CrimeEvent.occurrence_date >= start_dt)`
of `get_crimes` (`main.py`, lines 115-117). -/
def startDateFilter (sd : Option ℚ) (l : List CrimeEvent) : List CrimeEvent :=
  match sd with
  | Option.some sd => l.filter (fun e =>
      match e.occurrence_date with
      | Option.some d => decide (sd ≤ d)
      | Option.none => false)
  | Option.none => l

/-- Stage `if end_date: query.filter(CrimeEvent.occurrence_date <= end_dt)`
of `get_crimes` (`main.py`, lines 119-121). -/
def endDateFilter (ed : Option ℚ) (l : List CrimeEvent) : List CrimeEvent :=
  match ed with
  | Option.some ed => l.filter (fun e =>
      match e.occurrence_date with
      | Option.some d => decide (d ≤ ed)
      | Option.none => false)
  | Option.none => l

/-- Stage `if all([lat_min, lat_max, lng_min, lng_max]): query.filter(and_(...))`
of `get_crimes` (`main.py`, lines 124-132). -/
def bboxFilter (p : CrimesParams) (l : List CrimeEvent) : List CrimeEvent :=
  if bboxAllTruthy p then l.filter (bboxPred p) else l

/-- The filter chain of `get_crimes` (`main.py`, lines 106-132): optional
borough/offense `ILIKE` substring filters, optional inclusive date-range
filters on `occurrence_date`, and the bounding-box filter guarded by
`all([...])`, applied in source order. -/
def crimesQuery (db : List CrimeEvent) (p : CrimesParams) : List CrimeEvent :=
  bboxFilter p (endDateFilter p.end_date (startDateFilter p.start_date
    (offenseFilter p.offense (boroughFilter p.borough db))))

/-- Pagination object of the `GET /crimes` response (`main.py`,
lines 142-147). -/
structure Pagination where
  total : Nat
  skip : Nat
  limit : Nat
  pages : Nat
deriving DecidableEq, Repr

/-- The `bounding_box` echo of the `GET /crimes` response. -/
structure BBoxEcho where
  lat_min : Option ℚ
  lat_max : Option ℚ
  lng_min : Option ℚ
  lng_max : Option ℚ
deriving DecidableEq, Repr

/-- The `filters` echo of the `GET /crimes` response (`main.py`,
lines 148-159). -/
structure FiltersEcho where
  borough : Option String
  offense : Option String
  start_date : Option ℚ
  end_date : Option ℚ
  bounding_box : Option BBoxEcho
deriving DecidableEq, Repr

/-- Body of a successful `GET /crimes` response (`main.py`,
lines 140-160). -/
structure CrimesResponse where
  data : List CrimeDict
  pagination : Pagination
  filters : FiltersEcho
deriving DecidableEq, Repr

/-- Handler `get_crimes` of `GET /crimes` (`main.py`, lines 87-160):
filter, count, paginate with `offset(skip).limit(limit)`, serialize with
`to_dict`, and echo the effective filters. -/
def get_crimes (db : List CrimeEvent) (p : CrimesParams) : CrimesResponse :=
  let q := crimesQuery db p
  let total := q.length
  let crimes := (q.drop p.skip).take p.limit
  { data := crimes.map CrimeEvent.to_dict
    pagination :=
      { total := total, skip := p.skip, limit := p.limit,
        pages := (total + p.limit - 1) / p.limit }
    filters :=
      { borough := p.borough, offense := p.offense,
        start_date := p.start_date, end_date := p.end_date,
        bounding_box := if bboxAllTruthy p then
            Option.some { lat_min := p.lat_min, lat_max := p.lat_max,
                          lng_min := p.lng_min, lng_max := p.lng_max }
          else Option.none } }

/-- Outcome of an endpoint: a JSON body or an `HTTPException` with a
status code and detail string. -/
inductive ApiResult (α : Type) where
  | ok (val : α)
  | httpError (code : Nat) (detail : String)
deriving DecidableEq, Repr

/-- Handler `get_crime_by_id` of `GET /crimes/{crime_id}` (`main.py`,
lines 167-175): `.first()` on an exact id match, 404 when absent. -/
def get_crime_by_id (db : List CrimeEvent) (crime_id : Nat) : ApiResult CrimeDict :=
  match db.find? (fun e => e.id == crime_id) with
  | Option.none => ApiResult.httpError 404 "Crime not found"
  | Option.some crime => ApiResult.ok crime.to_dict

/-- SQL `date()` truncation of a timestamp to its calendar day, as the
day number on the time axis (86400 seconds per day). -/
def dateOf (t : ℚ) : ℤ :=
  (t / 86400).floor

/-- Body of a successful `GET /stats/timeline` response (`main.py`,
lines 273-284); a timeline entry is a `(date, count)` pair. -/
structure TimelineResponse where
  timeline : List (ℤ × Nat)
  period_days : Nat
  start_date : ℚ
  end_date : ℚ
deriving DecidableEq, Repr

/-- The filter `CrimeEvent.occurrence_date >= start_date` of
`get_crime_timeline` (`main.py`, lines 267-268). -/
def timelineFiltered (db : List CrimeEvent) (start_date : ℚ) : List CrimeEvent :=
  db.filter (fun e =>
    match e.occurrence_date with
    | Option.some d => decide (start_date ≤ d)
    | Option.none => false)

/-- The multiset of group keys `date(occurrence_date)` of the filtered rows
of `get_crime_timeline`. -/
def timelineDates (db : List CrimeEvent) (start_date : ℚ) : List ℤ :=
  (timelineFiltered db start_date).filterMap (fun e => e.occurrence_date.map dateOf)

/-- The distinct group keys in ascending order (`group_by` + `order_by`). -/
def timelineKeys (dates : List ℤ) : List ℤ :=
  List.insertionSort (· ≤ ·) dates.dedup

/-- Handler `get_crime_timeline` of `GET /stats/timeline` (`main.py`,
lines 254-288): filter `occurrence_date >= now - days`, group the rows by
`date(occurrence_date)`, count each group, order by date ascending.
FastAPI validates `1 ≤ days ≤ 365`. -/
def get_crime_timeline (db : List CrimeEvent) (now : ℚ) (days : Nat) :
    TimelineResponse :=
  let start_date := now - (days : ℚ) * 86400
  let dates := timelineDates db start_date
  { timeline := (timelineKeys dates).map (fun d => (d, dates.count d))
    period_days := days
    start_date := start_date
    end_date := now }

/-- Body of a successful `GET /geo/heatmap` response (`main.py`,
lines 315-327); a heatmap point is a `(lat, lng, offense)` triple. -/
structure HeatmapResponse where
  heatmap_points : List (ℚ × ℚ × Option String)
  total_points : Nat
  filterBorough : Option String
deriving DecidableEq, Repr

/-- Handler `get_heatmap_data` of `GET /geo/heatmap` (`main.py`,
lines 292-331): the query keeps rows whose latitude and longitude are both
non-NULL (plus the optional borough `ILIKE` filter); the Python list
comprehension then re-checks the coordinates for truthiness
(`if coord[0] and coord[1]`), which also drops coordinates equal to
`0.0`. -/
def get_heatmap_data (db : List CrimeEvent) (borough : Option String) :
    HeatmapResponse :=
  let q0 := db.filter (fun e => e.latitude.isSome && e.longitude.isSome)
  let q := if pyTruthyStr borough then
      q0.filter (fun e => ilikeOpt e.borough (borough.getD "")) else q0
  let coordinates := q.map (fun e => (e.latitude, e.longitude, e.offense_description))
  { heatmap_points := coordinates.filterMap (fun c =>
      if pyTruthyFloat c.1 && pyTruthyFloat c.2.1 then
        Option.some (c.1.getD 0, c.2.1.getD 0, c.2.2)
      else Option.none)
    total_points := coordinates.length
    filterBorough := borough }

/-! ## Session-operation traces of the GET endpoints (`main.py`)

Each handler acquires one session via `Depends(get_db)` and issues a
sequence of session operations.  `DBOp` lists the operations the
code of the repository that performs on a session; the GET handlers of `main.py`
issue only the read operations, while the write operations appear in
`nyc_ingest.py`. -/

/-- Full database state: the three tables of `models.py`. -/
structure DBState where
  crime_events : List CrimeEvent
  boroughs : List Borough
  crime_stats : List CrimeStats
deriving DecidableEq, Repr

/-- One session operation. -/
inductive DBOp where
  | queryCrimes
  | countCrimes
  | queryBoroughs
  | queryStats
  | deleteAllCrimes
  | deleteAllBoroughs
  | addCrime (e : CrimeEvent)
  | addBorough (b : Borough)
deriving DecidableEq, Repr

/-- Effect of one session operation on the database state (writes applied
eagerly; queries return data but do not change state). -/
def applyOp : DBOp → DBState → DBState
  | DBOp.queryCrimes, s => s
  | DBOp.countCrimes, s => s
  | DBOp.queryBoroughs, s => s
  | DBOp.queryStats, s => s
  | DBOp.deleteAllCrimes, s => { s with crime_events := [] }
  | DBOp.deleteAllBoroughs, s => { s with boroughs := [] }
  | DBOp.addCrime e, s => { s with crime_events := s.crime_events ++ [e] }
  | DBOp.addBorough b, s => { s with boroughs := s.boroughs ++ [b] }

/-- Run a trace of session operations. -/
def runOps (ops : List DBOp) (s : DBState) : DBState :=
  ops.foldl (fun s op => applyOp op s) s

/-- The HTTP GET surface of `main.py` with the parameters of each route. -/
inductive Endpoint where
  | root
  | health
  | crimes (p : CrimesParams)
  | crimeById (crime_id : Nat)
  | statsSummary
  | statsBoroughs
  | statsTimeline (days : Nat)
  | geoHeatmap (borough : Option String)
deriving DecidableEq, Repr

/-- The session operations each GET handler issues, read off `main.py`:
`root` touches no session; `health` counts crimes; `get_crimes` counts and
then fetches; `get_crime_by_id` fetches; `get_crime_summary` counts,
runs two group-by queries and a filtered count; the borough stats,
timeline and heatmap handlers each run one aggregate/filtered query. -/
def opsOf : Endpoint → List DBOp
  | Endpoint.root => []
  | Endpoint.health => [DBOp.countCrimes]
  | Endpoint.crimes _ => [DBOp.countCrimes, DBOp.queryCrimes]
  | Endpoint.crimeById _ => [DBOp.queryCrimes]
  | Endpoint.statsSummary =>
      [DBOp.countCrimes, DBOp.queryCrimes, DBOp.queryCrimes, DBOp.countCrimes]
  | Endpoint.statsBoroughs => [DBOp.queryCrimes]
  | Endpoint.statsTimeline _ => [DBOp.queryCrimes]
  | Endpoint.geoHeatmap _ => [DBOp.queryCrimes]

/-- Replace the fields that `CrimeEvent.to_dict` does not serialize
(suspect demographics, case notes, intersection, jurisdiction, data
quality score, update timestamp) by `none`.  Two rows differ only in
non-serialized fields exactly when their redactions coincide. -/
def redact (e : CrimeEvent) : CrimeEvent :=
  { e with
    suspect_age_group := Option.none
    suspect_gender := Option.none
    suspect_race := Option.none
    case_notes := Option.none
    intersection := Option.none
    jurisdiction := Option.none
    data_quality_score := Option.none
    updated_at := Option.none }



/-- A crime event with every nullable column NULL; concrete base row for
counterexamples and witnesses. -/
def emptyCrimeEvent : CrimeEvent :=
  { id := 0, complaint_number := Option.none, occurrence_date := Option.none,
    report_date := Option.none, offense_description := Option.none,
    law_category := Option.none, specific_offense := Option.none,
    borough := Option.none, precinct := Option.none, jurisdiction := Option.none,
    address := Option.none, intersection := Option.none, latitude := Option.none,
    longitude := Option.none, location_description := Option.none,
    premises_type := Option.none, status := Option.none, arrest_made := Option.none,
    victim_age_group := Option.none, victim_gender := Option.none,
    victim_race := Option.none, suspect_age_group := Option.none,
    suspect_gender := Option.none, suspect_race := Option.none,
    case_notes := Option.none, created_at := Option.none, updated_at := Option.none,
    data_source := Option.none, data_quality_score := Option.none }

/-- Query parameters of `GET /crimes` with no filter supplied. -/
def defaultParams : CrimesParams :=
  { skip := 0, limit := 100, borough := Option.none, offense := Option.none,
    start_date := Option.none, end_date := Option.none, lat_min := Option.none,
    lat_max := Option.none, lng_min := Option.none, lng_max := Option.none }

/-- C4: running `initialize_boroughs` twice leaves the `boroughs` table in the
same state as running it once: exactly 5 rows with identical field values. -/
theorem initialize_boroughs_idempotent :
    ∀ t : List Borough,
      initialize_boroughs (initialize_boroughs t) = initialize_boroughs t ∧
      (initialize_boroughs t).length = 5 :=
  fun _ => ⟨rfl, rfl⟩

/-- C1: behavior of `ingest_csv_data` at a CSV with one well-formed row
followed by one malformed row: the per-row `session.rollback()` also discards
the pending well-formed row, so 0 rows are committed although the counters
report 1 successful and 1 failed insert. -/
theorem ingest_rollback_discards_pending_batch :
    (ingest_csv_data [] [Option.some emptyCrimeEvent, Option.none]).successful = 1 ∧
    (ingest_csv_data [] [Option.some emptyCrimeEvent, Option.none]).failed = 1 ∧
    (ingest_csv_data [] [Option.some emptyCrimeEvent, Option.none]).table = [] :=
  ⟨rfl, rfl, rfl⟩

/-- Helper: on a run of malformed rows the fold only bumps the failure
counter (the pending list stays empty). -/
theorem foldl_ingestRow_all_none :
    ∀ (rows : List (Option CrimeEvent)) (c : List CrimeEvent) (su f : Nat),
      (∀ r ∈ rows, r = Option.none) →
      rows.foldl ingestRow ⟨c, [], su, f⟩ = ⟨c, [], su, f + rows.length⟩ := by
  intro rows
  induction rows with
  | nil => intro c su f _; simp
  | cons r rest ih =>
    intro c su f h
    have hr : r = Option.none := h r (by simp)
    subst hr
    show rest.foldl ingestRow (ingestRow ⟨c, [], su, f⟩ Option.none) = _
    have hstep : ingestRow ⟨c, [], su, f⟩ Option.none = ⟨c, [], su, f + 1⟩ := rfl
    rw [hstep, ih c su (f + 1) (fun x hx => h x (by simp [hx]))]
    simp [List.length_cons]
    omega

/-- C9: the boolean flag of `ingest_csv_data` is independent of the per-row
failure count: when every row is malformed the run still returns `True`,
with 0 successful and `rows.length` failed inserts. -/
theorem ingest_success_flag_independent (pre : List CrimeEvent)
    (rows : List (Option CrimeEvent)) (h : ∀ r ∈ rows, r = Option.none) :
    (ingest_csv_data pre rows).success = true ∧
    (ingest_csv_data pre rows).successful = 0 ∧
    (ingest_csv_data pre rows).failed = rows.length := by
  simp [ingest_csv_data, foldl_ingestRow_all_none rows [] 0 0 h]

/-- Witness for C9 at the concrete all-malformed CSV `[none, none]`. -/
theorem ingest_success_flag_independent_witness :
    (∀ r ∈ ([Option.none, Option.none] : List (Option CrimeEvent)), r = Option.none) ∧
    ((ingest_csv_data [] [Option.none, Option.none]).success = true ∧
     (ingest_csv_data [] [Option.none, Option.none]).successful = 0 ∧
     (ingest_csv_data [] [Option.none, Option.none]).failed = 2) := by
  refine ⟨by simp, ?_⟩
  simpa using ingest_success_flag_independent [] [Option.none, Option.none] (by simp)

/-- C8: the GET surface is read-only: running the session-operation trace of
any GET endpoint leaves the database state unchanged. -/
theorem api_read_only : ∀ (ep : Endpoint) (s : DBState), runOps (opsOf ep) s = s := by
  intro ep s
  cases ep <;> rfl

/-- Helper: the Python integer expression `(t + l - 1) // l` computes the
ceiling of `t / l` for every `l ≥ 1`. -/
theorem nat_add_pred_div_eq_ceil (t l : Nat) (h : 1 ≤ l) :
    (t + l - 1) / l = ⌈(t : ℚ) / (l : ℚ)⌉₊ := by
  have hl0 : 0 < l := h
  have hlq : (0 : ℚ) < l := by exact_mod_cast hl0
  apply le_antisymm
  · set c := ⌈(t : ℚ) / (l : ℚ)⌉₊ with hc
    have h1 : (t : ℚ) / l ≤ c := Nat.le_ceil _
    have h2 : (t : ℚ) ≤ c * l := by rwa [div_le_iff₀ hlq] at h1
    have h3 : t ≤ c * l := by exact_mod_cast h2
    have h4 : t + l - 1 < (c + 1) * l := by
      have : (c + 1) * l = c * l + l := by ring
      omega
    have := (Nat.div_lt_iff_lt_mul hl0).mpr h4
    omega
  · have hmod : (t + l - 1) / l * l + (t + l - 1) % l = t + l - 1 :=
      Nat.div_add_mod' _ _
    have hr : (t + l - 1) % l < l := Nat.mod_lt _ hl0
    have h5 : t ≤ (t + l - 1) / l * l := by omega
    apply Nat.ceil_le.mpr
    rw [div_le_iff₀ hlq]
    exact_mod_cast h5

/-- C3: the `pages` value of the `GET /crimes` pagination object equals
`ceil(total / limit)` whenever `limit ≥ 1` (as FastAPI validation
guarantees). -/
theorem get_crimes_pages_eq_ceil (db : List CrimeEvent) (p : CrimesParams)
    (h : 1 ≤ p.limit) :
    (get_crimes db p).pagination.pages =
      ⌈((get_crimes db p).pagination.total : ℚ) / (p.limit : ℚ)⌉₊ :=
  nat_add_pred_div_eq_ceil (crimesQuery db p).length p.limit h

/-- Witness for C3 with an empty table and the default parameters. -/
theorem get_crimes_pages_eq_ceil_witness :
    1 ≤ defaultParams.limit ∧
    (get_crimes [] defaultParams).pagination.pages =
      ⌈((get_crimes [] defaultParams).pagination.total : ℚ) /
        (defaultParams.limit : ℚ)⌉₊ :=
  ⟨by decide, get_crimes_pages_eq_ceil [] defaultParams (by decide)⟩

/-- Crime event outside the box `[0,5] x [1,5]`, used to refute C2. -/
def bboxEvent : CrimeEvent :=
  { emptyCrimeEvent with
    id := 1, latitude := Option.some 10, longitude := Option.some 10 }

/-- Bounding-box parameters with `lat_min = 0.0`: all four bounds are
supplied, but `0.0` is falsy in Python. -/
def bboxZeroParams : CrimesParams :=
  { defaultParams with
    lat_min := Option.some 0, lat_max := Option.some 5,
    lng_min := Option.some 1, lng_max := Option.some 5 }

/-- In-box parameters with four truthy (nonzero) bounds. -/
def bboxTruthyParams : CrimesParams :=
  { defaultParams with
    lat_min := Option.some 1, lat_max := Option.some 2,
    lng_min := Option.some 1, lng_max := Option.some 2 }

/-- Crime event inside the box `[1,2] x [1,2]`. -/
def bboxInEvent : CrimeEvent :=
  { emptyCrimeEvent with
    id := 2, latitude := Option.some (3/2),
    longitude := Option.some (3/2) }

/-- C2 counterexample: all four bounding-box parameters are supplied
(`lat_min = 0.0`), yet `GET /crimes` returns a record whose latitude 10 is
not within `[lat_min, lat_max] = [0, 5]` - because `all([...])` treats the
supplied bound `0.0` as falsy and skips the filter. -/
theorem get_crimes_bbox_counterexample :
    (bboxZeroParams.lat_min.isSome ∧ bboxZeroParams.lat_max.isSome ∧
      bboxZeroParams.lng_min.isSome ∧ bboxZeroParams.lng_max.isSome) ∧
    CrimeEvent.to_dict bboxEvent ∈ (get_crimes [bboxEvent] bboxZeroParams).data ∧
    (CrimeEvent.to_dict bboxEvent).latitude = Option.some 10 ∧
    ¬ (bboxZeroParams.lat_min.getD 0 ≤ (10 : ℚ) ∧
       (10 : ℚ) ≤ bboxZeroParams.lat_max.getD 0 ∧
       bboxZeroParams.lng_min.getD 0 ≤ (10 : ℚ) ∧
       (10 : ℚ) ≤ bboxZeroParams.lng_max.getD 0) := by
  refine ⟨by decide, by decide, by decide, by decide⟩

/-- Remove the four bounding-box parameters from a `GET /crimes` request. -/
def clearBox (p : CrimesParams) : CrimesParams :=
  { p with
    lat_min := Option.none, lat_max := Option.none,
    lng_min := Option.none, lng_max := Option.none }

/-- Helper: a row passing the bounding-box predicate has both coordinates
present and within the supplied bounds. -/
theorem bboxPred_spec {p : CrimesParams} {e : CrimeEvent}
    (h : bboxPred p e = true) :
    ∃ la lo, e.latitude = Option.some la ∧ e.longitude = Option.some lo ∧
      p.lat_min.getD 0 ≤ la ∧ la ≤ p.lat_max.getD 0 ∧
      p.lng_min.getD 0 ≤ lo ∧ lo ≤ p.lng_max.getD 0 := by
  unfold bboxPred at h
  split at h
  · rename_i lamin lamax lomin lomax la lo h1 h2 h3 h4 h5 h6
    simp only [Bool.and_eq_true, decide_eq_true_eq] at h
    refine ⟨la, lo, h5, h6, ?_, ?_, ?_, ?_⟩ <;>
      simp only [h1, h2, h3, h4, Option.getD_some]
    · exact h.1.1.1
    · exact h.1.1.2
    · exact h.1.2
    · exact h.2
  · cases h

/-- Helper: a member of the filtered query is a member of the underlying
table that passes the active filters; here only the bounding-box stage is
extracted. -/
theorem mem_crimesQuery_bbox {db : List CrimeEvent} {p : CrimesParams}
    {e : CrimeEvent} (hbb : bboxAllTruthy p = true) (he : e ∈ crimesQuery db p) :
    bboxPred p e = true := by
  unfold crimesQuery bboxFilter at he
  rw [hbb] at he
  simp only [if_true] at he
  exact (List.mem_filter.mp he).2

/-- C2 amended: the bounding-box filter of `GET /crimes` is applied exactly
when all four bounds are supplied and truthy (nonzero); then every returned
record lies in the box.  When the guard is falsy - including a supplied
bound equal to `0.0` - the response is identical to a request without any
bounding-box parameters. -/
theorem get_crimes_bbox_amended (db : List CrimeEvent) (p : CrimesParams) :
    (bboxAllTruthy p = true →
      ∀ d ∈ (get_crimes db p).data, ∃ la lo,
        d.latitude = Option.some la ∧ d.longitude = Option.some lo ∧
        p.lat_min.getD 0 ≤ la ∧ la ≤ p.lat_max.getD 0 ∧
        p.lng_min.getD 0 ≤ lo ∧ lo ≤ p.lng_max.getD 0) ∧
    (bboxAllTruthy p = false → get_crimes db p = get_crimes db (clearBox p)) := by
  constructor
  · intro hbb d hd
    simp only [get_crimes, List.mem_map] at hd
    obtain ⟨e, he, rfl⟩ := hd
    have he' : e ∈ crimesQuery db p :=
      List.mem_of_mem_drop (List.mem_of_mem_take he)
    have hpred := mem_crimesQuery_bbox hbb he'
    obtain ⟨la, lo, h1, h2, h3⟩ := bboxPred_spec hpred
    exact ⟨la, lo, h1, h2, h3⟩
  · intro hbb
    have hcb : bboxAllTruthy (clearBox p) = false := rfl
    simp only [get_crimes, crimesQuery, bboxFilter, hbb, hcb,
      Bool.false_eq_true, if_false]
    rfl

/-- Witness for C2 exercising both hypotheses: with four truthy bounds every
returned record lies in the box, and with the falsy `0.0` bound the response
equals the response without bounding-box parameters. -/
theorem get_crimes_bbox_amended_witness :
    (bboxAllTruthy bboxTruthyParams = true ∧
      ∀ d ∈ (get_crimes [bboxInEvent] bboxTruthyParams).data, ∃ la lo,
        d.latitude = Option.some la ∧ d.longitude = Option.some lo ∧
        bboxTruthyParams.lat_min.getD 0 ≤ la ∧
        la ≤ bboxTruthyParams.lat_max.getD 0 ∧
        bboxTruthyParams.lng_min.getD 0 ≤ lo ∧
        lo ≤ bboxTruthyParams.lng_max.getD 0) ∧
    (bboxAllTruthy bboxZeroParams = false ∧
      get_crimes [bboxEvent] bboxZeroParams =
        get_crimes [bboxEvent] (clearBox bboxZeroParams)) :=
  ⟨⟨by decide, (get_crimes_bbox_amended [bboxInEvent] bboxTruthyParams).1 (by decide)⟩,
   ⟨by decide, (get_crimes_bbox_amended [bboxEvent] bboxZeroParams).2 (by decide)⟩⟩

/-- Helper: with pairwise-distinct ids, `find?` on an exact id match returns
the matching row. -/
theorem find?_id_eq_of_mem {db : List CrimeEvent} {i : Nat} {e : CrimeEvent}
    (he : e ∈ db) (hei : e.id = i)
    (hnd : db.Pairwise (fun a b => a.id ≠ b.id)) :
    db.find? (fun x => x.id == i) = Option.some e := by
  induction db with
  | nil => cases he
  | cons a l ih =>
    rcases List.mem_cons.mp he with rfl | hel
    · have hp : (fun x : CrimeEvent => x.id == i) e = true := by simp [hei]
      exact List.find?_cons_of_pos _ hp
    · have hane : a.id ≠ e.id := (List.pairwise_cons.mp hnd).1 e hel
      have hp : ¬ ((fun x : CrimeEvent => x.id == i) a = true) := by
        simp [hei ▸ hane]
      rw [List.find?_cons_of_neg (p := fun x => x.id == i) l hp]
      exact ih hel (List.Pairwise.of_cons hnd)

/-- C7: `GET /crimes/{id}`: with no matching row the handler returns the
404 response (and the only error it can ever produce is the 404, never a
5xx); with a matching row (ids are unique, being the primary key) it
returns that row serialization. -/
theorem get_crime_by_id_spec : ∀ (db : List CrimeEvent) (i : Nat),
    ((∀ e ∈ db, e.id ≠ i) →
      get_crime_by_id db i = ApiResult.httpError 404 "Crime not found") ∧
    (∀ code detail, get_crime_by_id db i = ApiResult.httpError code detail →
      code = 404) ∧
    (∀ e ∈ db, e.id = i → db.Pairwise (fun a b => a.id ≠ b.id) →
      get_crime_by_id db i = ApiResult.ok e.to_dict) := by
  intro db i
  refine ⟨?_, ?_, ?_⟩
  · intro h
    have hnone : db.find? (fun e => e.id == i) = Option.none := by
      apply List.find?_eq_none.mpr
      intro x hx
      simpa using h x hx
    simp [get_crime_by_id, hnone]
  · intro code detail h
    unfold get_crime_by_id at h
    cases hf : db.find? (fun e => e.id == i) <;> rw [hf] at h
    · injection h with h1 h2
      exact h1.symm
    · exact absurd h (by simp)
  · intro e he hei hnd
    simp [get_crime_by_id, find?_id_eq_of_mem he hei hnd]

/-- Witness for C7: a nonexistent id yields the 404 response, an existing id
yields the row serialization. -/
theorem get_crime_by_id_spec_witness :
    ((∀ e ∈ ([bboxEvent] : List CrimeEvent), e.id ≠ 99) ∧
      get_crime_by_id [bboxEvent] 99 = ApiResult.httpError 404 "Crime not found") ∧
    (get_crime_by_id [bboxEvent] 1 = ApiResult.ok bboxEvent.to_dict) :=
  ⟨⟨by decide, (get_crime_by_id_spec [bboxEvent] 99).1 (by decide)⟩,
   (get_crime_by_id_spec [bboxEvent] 1).2.2 bboxEvent (by simp) (by decide)
     (by simp)⟩

/-- Helper: day truncation is monotone. -/
theorem dateOf_mono {s t : ℚ} (h : s ≤ t) : dateOf s ≤ dateOf t := by
  unfold dateOf
  apply Rat.le_floor.mpr
  calc ((s / 86400).floor : ℚ) ≤ s / 86400 := Rat.le_floor.mp le_rfl
    _ ≤ t / 86400 := (div_le_div_iff_of_pos_right (by norm_num)).mpr h

/-- Helper: every group key of the timeline is the day of some stored
occurrence timestamp that passed the `>= start_date` filter. -/
theorem mem_timelineDates {db : List CrimeEvent} {s : ℚ} {d : ℤ}
    (hd : d ∈ timelineDates db s) :
    ∃ e ∈ db, ∃ t, e.occurrence_date = Option.some t ∧ s ≤ t ∧ d = dateOf t := by
  unfold timelineDates timelineFiltered at hd
  obtain ⟨e, he, hmap⟩ := List.mem_filterMap.mp hd
  obtain ⟨hedb, hpred⟩ := List.mem_filter.mp he
  cases ho : e.occurrence_date with
  | none => rw [ho] at hmap; cases hmap
  | some t =>
    rw [ho] at hmap
    injection hmap with hmap
    simp only [ho, decide_eq_true_eq] at hpred
    exact ⟨e, hedb, t, ho, hpred, hmap.symm⟩

/-- Helper: the ordered distinct group keys are sorted strictly. -/
theorem timelineKeys_sorted (dates : List ℤ) :
    List.Sorted (· < ·) (timelineKeys dates) := by
  unfold timelineKeys
  exact (List.sorted_insertionSort _ _).lt_of_le
    ((List.perm_insertionSort _ _).symm.nodup (List.nodup_dedup _))

/-- Helper: the ordered distinct group keys are exactly the group keys. -/
theorem mem_timelineKeys {dates : List ℤ} {d : ℤ} :
    d ∈ timelineKeys dates ↔ d ∈ dates := by
  unfold timelineKeys
  rw [(List.perm_insertionSort _ _).mem_iff]
  exact List.mem_dedup

/-- C5 amended: for `GET /stats/timeline?days=30` the returned dates are
strictly ascending (hence duplicate-free) and every date is at least the
day of `now - 30d`; the dates are additionally at most the day of `now`
provided every stored occurrence date is `≤ now` (the handler itself
enforces no upper bound, so future-dated rows would exceed it). -/
theorem get_crime_timeline_spec (db : List CrimeEvent) (now : ℚ) :
    List.Sorted (· < ·) ((get_crime_timeline db now 30).timeline.map Prod.fst) ∧
    (∀ x ∈ (get_crime_timeline db now 30).timeline,
      dateOf (now - ((30 : Nat) : ℚ) * 86400) ≤ x.1) ∧
    ((∀ e ∈ db, ∀ d, e.occurrence_date = Option.some d → d ≤ now) →
      ∀ x ∈ (get_crime_timeline db now 30).timeline, x.1 ≤ dateOf now) := by
  refine ⟨?_, ?_, ?_⟩
  · have hmap : (get_crime_timeline db now 30).timeline.map Prod.fst
        = timelineKeys (timelineDates db (now - ((30 : Nat) : ℚ) * 86400)) := by
      show (List.map _ _).map Prod.fst = _
      rw [List.map_map]
      exact List.map_id' _
    rw [hmap]
    exact timelineKeys_sorted _
  · intro x hx
    obtain ⟨d, hdk, rfl⟩ := List.mem_map.mp hx
    obtain ⟨e, _, t, _, hst, rfl⟩ := mem_timelineDates (mem_timelineKeys.mp hdk)
    exact dateOf_mono hst
  · intro hub x hx
    obtain ⟨d, hdk, rfl⟩ := List.mem_map.mp hx
    obtain ⟨e, he, t, ho, _, rfl⟩ := mem_timelineDates (mem_timelineKeys.mp hdk)
    exact dateOf_mono (hub e he t ho)

/-- Crime event dated 40 days in the future of `now = 0`. -/
def futureEvent : CrimeEvent :=
  { emptyCrimeEvent with
    id := 4, occurrence_date := Option.some (40 * 86400) }

/-- C5 counterexample: the handler only filters `occurrence_date >=
now - 30d`, so a future-dated row yields a timeline date (day 40) strictly
after `now` (day 0), refuting "every date lies within [now-30d, now]". -/
theorem get_crime_timeline_counterexample :
    (get_crime_timeline [futureEvent] 0 30).timeline.map Prod.fst = [40] ∧
    dateOf (0 : ℚ) = 0 ∧ ¬ ((40 : ℤ) ≤ dateOf (0 : ℚ)) := by
  have harith : ((0 : ℚ) - ((30 : Nat) : ℚ) * 86400) ≤ 40 * 86400 := by norm_num
  have hdiv : ((40 * 86400 : ℚ)) / 86400 = 40 := by norm_num
  have hd40 : dateOf (40 * 86400) = 40 := by
    unfold dateOf
    rw [hdiv, Rat.floor_def']
    decide
  have hd0 : dateOf (0 : ℚ) = 0 := by
    unfold dateOf
    rw [zero_div, Rat.floor_def']
    decide
  have hdates :
      timelineDates [futureEvent] ((0 : ℚ) - ((30 : Nat) : ℚ) * 86400) = [40] := by
    unfold timelineDates timelineFiltered
    have hocc : futureEvent.occurrence_date = Option.some (40 * 86400 : ℚ) := rfl
    simp only [List.filter_cons, List.filter_nil, hocc, decide_eq_true harith,
      if_true, List.filterMap_cons, List.filterMap_nil, Option.map_some', hd40]
  refine ⟨?_, hd0, by rw [hd0]; decide⟩
  simp only [get_crime_timeline, hdates]
  simp [timelineKeys, List.insertionSort, List.orderedInsert]

/-- Crime event dated one day before `now = 0`. -/
def pastEvent : CrimeEvent :=
  { emptyCrimeEvent with
    id := 5, occurrence_date := Option.some (-86400) }

/-- Witness for C5 at a one-row table whose occurrence date is in the past:
both bounds hold and the dates are strictly ascending. -/
theorem get_crime_timeline_spec_witness :
    List.Sorted (· < ·)
      ((get_crime_timeline [pastEvent] 0 30).timeline.map Prod.fst) ∧
    (∀ x ∈ (get_crime_timeline [pastEvent] 0 30).timeline,
      dateOf ((0 : ℚ) - ((30 : Nat) : ℚ) * 86400) ≤ x.1) ∧
    ((∀ e ∈ ([pastEvent] : List CrimeEvent), ∀ d,
        e.occurrence_date = Option.some d → d ≤ (0 : ℚ)) ∧
      ∀ x ∈ (get_crime_timeline [pastEvent] 0 30).timeline,
        x.1 ≤ dateOf (0 : ℚ)) := by
  have hub : ∀ e ∈ ([pastEvent] : List CrimeEvent), ∀ d,
      e.occurrence_date = Option.some d → d ≤ (0 : ℚ) := by
    intro e he d hd
    rw [List.mem_singleton.mp he] at hd
    injection hd with hd
    rw [← hd]
    norm_num
  have h := get_crime_timeline_spec [pastEvent] 0
  exact ⟨h.1, h.2.1, hub, h.2.2 hub⟩

/-- Crime event with non-null coordinates whose latitude is exactly `0.0`. -/
def zeroLatEvent : CrimeEvent :=
  { emptyCrimeEvent with
    id := 3, latitude := Option.some 0, longitude := Option.some 1,
    offense_description := Option.some "PETIT LARCENY" }

/-- C6 counterexample: a stored row with non-null coordinates `(0.0, 1.0)`
passes the SQL non-null filter (it is counted in `total_points`) but its
triple is omitted from `heatmap_points`, because the Python comprehension
`if coord[0] and coord[1]` treats the latitude `0.0` as falsy. -/
theorem get_heatmap_counterexample :
    zeroLatEvent.latitude = Option.some 0 ∧
    zeroLatEvent.longitude = Option.some 1 ∧
    (get_heatmap_data [zeroLatEvent] Option.none).heatmap_points = [] ∧
    (get_heatmap_data [zeroLatEvent] Option.none).total_points = 1 := by
  refine ⟨rfl, rfl, by decide, rfl⟩

/-- Helper: a truthy optional float is a present, nonzero value. -/
theorem pyTruthyFloat_spec {o : Option ℚ} (h : pyTruthyFloat o = true) :
    ∃ x, o = Option.some x ∧ x ≠ 0 := by
  cases o with
  | none => cases h
  | some x => exact ⟨x, rfl, by simpa [pyTruthyFloat] using h⟩

/-- C6 amended: `heatmap_points` contains exactly the `(lat, lng, offense)`
triples of the stored rows whose coordinates are non-null AND nonzero
(truthy), restricted by the borough substring filter when one is
supplied. -/
theorem get_heatmap_points_iff (db : List CrimeEvent) (b : Option String)
    (la lo : ℚ) (off : Option String) :
    (la, lo, off) ∈ (get_heatmap_data db b).heatmap_points ↔
      la ≠ 0 ∧ lo ≠ 0 ∧ ∃ e ∈ db,
        e.latitude = Option.some la ∧ e.longitude = Option.some lo ∧
        e.offense_description = off ∧
        (pyTruthyStr b = true → ilikeOpt e.borough (b.getD "") = true) := by
  have hqmem : ∀ e : CrimeEvent,
      (e ∈ (if pyTruthyStr b then
          (db.filter (fun e => e.latitude.isSome && e.longitude.isSome)).filter
            (fun e => ilikeOpt e.borough (b.getD ""))
        else db.filter (fun e => e.latitude.isSome && e.longitude.isSome))) ↔
      (e ∈ db ∧ (e.latitude.isSome && e.longitude.isSome) = true ∧
        (pyTruthyStr b = true → ilikeOpt e.borough (b.getD "") = true)) := by
    intro e
    by_cases hb : pyTruthyStr b = true
    · rw [if_pos hb]
      simp only [List.mem_filter, Bool.and_eq_true]
      tauto
    · rw [if_neg hb]
      simp only [List.mem_filter, Bool.and_eq_true]
      have hvac : pyTruthyStr b = true → ilikeOpt e.borough (b.getD "") = true :=
        fun h => absurd h hb
      tauto
  simp only [get_heatmap_data]
  constructor
  · intro h
    obtain ⟨c, hc, hgc⟩ := List.mem_filterMap.mp h
    obtain ⟨e, he, rfl⟩ := List.mem_map.mp hc
    obtain ⟨hedb, _, hfb⟩ := (hqmem e).mp he
    by_cases ht : (pyTruthyFloat e.latitude && pyTruthyFloat e.longitude) = true
    · rw [if_pos ht] at hgc
      injection hgc with hgc
      rw [Prod.mk.injEq, Prod.mk.injEq] at hgc
      obtain ⟨h1, h2, h3⟩ := hgc
      obtain ⟨hlatT, hlngT⟩ := Bool.and_eq_true_iff.mp ht
      obtain ⟨x, hx, hx0⟩ := pyTruthyFloat_spec hlatT
      obtain ⟨y, hy, hy0⟩ := pyTruthyFloat_spec hlngT
      rw [hx, Option.getD_some] at h1
      rw [hy, Option.getD_some] at h2
      exact ⟨h1 ▸ hx0, h2 ▸ hy0, e, hedb, h1 ▸ hx, h2 ▸ hy, h3, hfb⟩
    · rw [if_neg ht] at hgc
      cases hgc
  · rintro ⟨hla, hlo, e, hedb, hlat, hlng, hoff, hfbimp⟩
    apply List.mem_filterMap.mpr
    refine ⟨(e.latitude, e.longitude, e.offense_description), ?_, ?_⟩
    · apply List.mem_map.mpr
      refine ⟨e, ?_, rfl⟩
      exact (hqmem e).mpr ⟨hedb, by simp [hlat, hlng], hfbimp⟩
    · rw [hlat, hlng]
      simp [pyTruthyFloat, hla, hlo, hoff]

/-- Crime event with truthy coordinates `(2, 3)`. -/
def heatEvent : CrimeEvent :=
  { emptyCrimeEvent with
    id := 6, latitude := Option.some 2, longitude := Option.some 3,
    offense_description := Option.some "ROBBERY" }

/-- Witness for C6: the triple of a row with nonzero non-null coordinates is
a heatmap point. -/
theorem get_heatmap_points_iff_witness :
    ((2 : ℚ), (3 : ℚ), Option.some "ROBBERY") ∈
      (get_heatmap_data [heatEvent] Option.none).heatmap_points :=
  (get_heatmap_points_iff [heatEvent] Option.none 2 3
      (Option.some "ROBBERY")).mpr
    ⟨by norm_num, by norm_num, heatEvent, by simp, rfl, rfl, rfl, by decide⟩

/-- Helper: serialization ignores the redacted fields. -/
theorem to_dict_redact (e : CrimeEvent) : (redact e).to_dict = e.to_dict := rfl

/-- Helper: a filter whose predicate ignores the redacted fields commutes
with redaction of the table. -/
theorem filter_map_redact (l : List CrimeEvent) (f : CrimeEvent → Bool)
    (hf : f ∘ redact = f) : (l.map redact).filter f = (l.filter f).map redact := by
  rw [List.filter_map, hf]

/-- Helper: the borough stage ignores the redacted fields. -/
theorem boroughFilter_map_redact (b : Option String) (l : List CrimeEvent) :
    boroughFilter b (l.map redact) = (boroughFilter b l).map redact := by
  unfold boroughFilter
  cases pyTruthyStr b
  · simp only [Bool.false_eq_true, if_false]
  · simp only [if_true]
    exact filter_map_redact l _ rfl

/-- Helper: the offense stage ignores the redacted fields. -/
theorem offenseFilter_map_redact (o : Option String) (l : List CrimeEvent) :
    offenseFilter o (l.map redact) = (offenseFilter o l).map redact := by
  unfold offenseFilter
  cases pyTruthyStr o
  · simp only [Bool.false_eq_true, if_false]
  · simp only [if_true]
    exact filter_map_redact l _ rfl

/-- Helper: the start-date stage ignores the redacted fields. -/
theorem startDateFilter_map_redact (sd : Option ℚ) (l : List CrimeEvent) :
    startDateFilter sd (l.map redact) = (startDateFilter sd l).map redact := by
  cases sd
  · rfl
  · exact filter_map_redact l _ rfl

/-- Helper: the end-date stage ignores the redacted fields. -/
theorem endDateFilter_map_redact (ed : Option ℚ) (l : List CrimeEvent) :
    endDateFilter ed (l.map redact) = (endDateFilter ed l).map redact := by
  cases ed
  · rfl
  · exact filter_map_redact l _ rfl

/-- Helper: the bounding-box stage ignores the redacted fields. -/
theorem bboxFilter_map_redact (p : CrimesParams) (l : List CrimeEvent) :
    bboxFilter p (l.map redact) = (bboxFilter p l).map redact := by
  unfold bboxFilter
  cases bboxAllTruthy p
  · simp only [Bool.false_eq_true, if_false]
  · simp only [if_true]
    exact filter_map_redact l _ rfl

/-- Helper: the whole `GET /crimes` filter chain ignores the redacted
fields. -/
theorem crimesQuery_map_redact (db : List CrimeEvent) (p : CrimesParams) :
    crimesQuery (db.map redact) p = (crimesQuery db p).map redact := by
  unfold crimesQuery
  rw [boroughFilter_map_redact, offenseFilter_map_redact,
    startDateFilter_map_redact, endDateFilter_map_redact, bboxFilter_map_redact]

/-- Helper: the `GET /crimes` response is unchanged when the table is
redacted. -/
theorem get_crimes_map_redact (db : List CrimeEvent) (p : CrimesParams) :
    get_crimes (db.map redact) p = get_crimes db p := by
  simp only [get_crimes, crimesQuery_map_redact, ← List.map_drop,
    ← List.map_take, List.map_map, List.length_map]
  rfl

/-- Helper: the `GET /crimes/{id}` response is unchanged when the table is
redacted. -/
theorem get_crime_by_id_map_redact (db : List CrimeEvent) (i : Nat) :
    get_crime_by_id (db.map redact) i = get_crime_by_id db i := by
  unfold get_crime_by_id
  rw [List.find?_map]
  have hcomp : ((fun e : CrimeEvent => e.id == i) ∘ redact)
      = (fun e : CrimeEvent => e.id == i) := rfl
  rw [hcomp]
  cases hf : db.find? (fun e => e.id == i) <;> simp [hf, to_dict_redact]

/-- C10: responses never expose the redacted fields: serializations of rows
that agree outside the suspect demographics, case notes, intersection,
jurisdiction, data-quality score and update timestamp are identical, and
two tables that agree up to those fields produce identical `GET /crimes`
and `GET /crimes/{id}` responses. -/
theorem to_dict_hides_internal_fields :
    (∀ e1 e2 : CrimeEvent, redact e1 = redact e2 → e1.to_dict = e2.to_dict) ∧
    (∀ (db1 db2 : List CrimeEvent) (p : CrimesParams) (i : Nat),
      db1.map redact = db2.map redact →
      get_crimes db1 p = get_crimes db2 p ∧
      get_crime_by_id db1 i = get_crime_by_id db2 i) := by
  constructor
  · intro e1 e2 h
    calc e1.to_dict = (redact e1).to_dict := (to_dict_redact e1).symm
      _ = (redact e2).to_dict := by rw [h]
      _ = e2.to_dict := to_dict_redact e2
  · intro db1 db2 p i h
    constructor
    · calc get_crimes db1 p = get_crimes (db1.map redact) p :=
            (get_crimes_map_redact db1 p).symm
        _ = get_crimes (db2.map redact) p := by rw [h]
        _ = get_crimes db2 p := get_crimes_map_redact db2 p
    · calc get_crime_by_id db1 i = get_crime_by_id (db1.map redact) i :=
            (get_crime_by_id_map_redact db1 i).symm
        _ = get_crime_by_id (db2.map redact) i := by rw [h]
        _ = get_crime_by_id db2 i := get_crime_by_id_map_redact db2 i

/-- Crime event with suspect demographics and internal fields populated. -/
def suspectEventA : CrimeEvent :=
  { emptyCrimeEvent with
    id := 7, suspect_age_group := Option.some "25-44",
    suspect_gender := Option.some "M", suspect_race := Option.some "OTHER",
    case_notes := Option.some "sealed", intersection := Option.some "1 AV",
    jurisdiction := Option.some "NYPD", data_quality_score := Option.some 1,
    updated_at := Option.some 0 }

/-- The same crime event with all of those fields NULL. -/
def suspectEventB : CrimeEvent :=
  { emptyCrimeEvent with id := 7 }

/-- Witness for C10: the two rows differ only in non-serialized fields and
produce the same serialization and the same responses. -/
theorem to_dict_hides_internal_fields_witness :
    (redact suspectEventA = redact suspectEventB ∧
      suspectEventA.to_dict = suspectEventB.to_dict) ∧
    ([suspectEventA].map redact = [suspectEventB].map redact ∧
      get_crimes [suspectEventA] defaultParams =
        get_crimes [suspectEventB] defaultParams ∧
      get_crime_by_id [suspectEventA] 7 = get_crime_by_id [suspectEventB] 7) :=
  ⟨⟨rfl, to_dict_hides_internal_fields.1 suspectEventA suspectEventB rfl⟩,
    ⟨rfl, to_dict_hides_internal_fields.2 [suspectEventA] [suspectEventB]
      defaultParams 7 rfl⟩⟩

end Gotham
